import Mathlib

/-!
Shallow embedding of the GameSpecial Flask application (src/App.py).

The relational store is modelled as three in-memory lists (users, games,
messages); each route handler becomes a pure function from a `DB` (plus the
request's session identity and form fields) to a result and, where the
handler mutates the store, a successor `DB`.  SQLAlchemy queries become
`List.filter` / `List.find?` over those lists; `first_or_404` becomes an
error constructor; autoincrement ids are `max + 1`; `func.now()` timestamps
are explicit `Nat` parameters.
-/

/-- The `User` model (App.py lines 25-47).  `created_at` is an abstract tick. -/
structure User where
  id : Nat
  username : String
  email : String
  password_hash : String := ""
  description : String := ""
  contact : String := ""
  discord : String := ""
  telegram : String := ""
  preferred_role : String := ""
  is_active : Bool := true
  created_at : Nat := 0
deriving DecidableEq

/-- The `Game` model (App.py lines 49-55): one title owned by one user. -/
structure Game where
  id : Nat
  game_title : String
  user_id : Nat
deriving DecidableEq

/-- The `Message` model (App.py lines 57-69). -/
structure Message where
  id : Nat
  sender_id : Nat
  receiver_id : Nat
  content : String
  timestamp : Nat := 0
  is_read : Bool := false
deriving DecidableEq

/-- The relational store: the three tables, in insertion (primary-key) order. -/
structure DB where
  users : List User
  games : List Game
  messages : List Message
deriving DecidableEq

/-- The fixed game catalog `AVAILABLE_GAMES` (App.py lines 19-22). -/
def AVAILABLE_GAMES : List String :=
  ["World of Warcraft", "Cyberpunk 2077", "Dota 2", "Counter-Strike 2",
   "Baldur's Gate 3", "Minecraft", "Apex Legends", "Genshin Impact",
   "Rocket League"]

/-- `User.games.any(game_title=...)`: some game row joins this user with this
title. -/
def userHasTitle (db : DB) (u : User) (title : String) : Bool :=
  db.games.any (fun g => g.user_id == u.id && g.game_title == title)

/-- The contact pass of `find_game` (App.py lines 278-288): a user survives a
non-empty `contact_filters` iff some requested channel is populated. -/
def hasRequiredContact (contact_filters : List String) (u : User) : Bool :=
  (contact_filters.contains ("discord") && !(u.discord == "")) ||
  (contact_filters.contains ("telegram") && !(u.telegram == ""))

/-- The `/find_game` route (App.py lines 261-296): start from the active
users, narrow by one `.filter(User.games.any(...))` per selected title, then
(only when `contact_filters` is non-empty, Python truthiness) keep the users
with a required contact. -/
def find_game (db : DB) (selected_games contact_filters : List String) :
    List User :=
  let base := db.users.filter (fun u => u.is_active)
  let found_users :=
    selected_games.foldl (fun q t => q.filter (fun u => userHasTitle db u t)) base
  if contact_filters.isEmpty then found_users
  else found_users.filter (fun u => hasRequiredContact contact_filters u)

/-- The `/` landing page's user listing (App.py lines 124-136): all active
users (the route also renders two aggregate counts, not modelled). -/
def home (db : DB) : List User :=
  db.users.filter (fun u => u.is_active)

/-- Membership in an iterated filter-fold: the element must be in the base
list and pass every filter. -/
lemma mem_foldl_filter (p : String → User → Bool) :
    ∀ (sel : List String) (base : List User) (u : User),
      u ∈ sel.foldl (fun q t => q.filter (fun v => p t v)) base ↔
        u ∈ base ∧ ∀ t ∈ sel, p t u = true := by
  intro sel
  induction sel with
  | nil => intro base u; simp
  | cons t ts ih =>
      intro base u
      rw [List.foldl_cons, ih]
      simp [List.mem_filter, and_assoc]

/-- Characterisation of the game stage of `find_game` (empty contact
filter). -/
lemma mem_find_game_no_contact (db : DB) (sel : List String) (u : User) :
    u ∈ find_game db sel [] ↔
      u ∈ db.users ∧ u.is_active = true ∧ ∀ t ∈ sel, userHasTitle db u t = true := by
  unfold find_game
  simp only [List.isEmpty_nil, if_pos]
  rw [mem_foldl_filter (fun t v => userHasTitle db v t) sel]
  simp [List.mem_filter, and_assoc]

/-- Any user returned by `find_game` comes from the active-user base. -/
lemma mem_find_game_active (db : DB) (sel cf : List String) (u : User)
    (h : u ∈ find_game db sel cf) : u ∈ db.users ∧ u.is_active = true := by
  unfold find_game at h
  split at h
  · rw [mem_foldl_filter (fun t v => userHasTitle db v t) sel] at h
    have := h.1
    simp only [List.mem_filter] at this
    exact ⟨this.1, this.2⟩
  · rw [List.mem_filter] at h
    rw [mem_foldl_filter (fun t v => userHasTitle db v t) sel] at h
    have := h.1.1
    simp only [List.mem_filter] at this
    exact ⟨this.1, this.2⟩

/-- Full characterisation of `find_game` with a non-empty contact filter. -/
lemma mem_find_game_contact (db : DB) (sel cf : List String) (u : User)
    (h : cf ≠ []) :
    u ∈ find_game db sel cf ↔
      u ∈ db.users ∧ u.is_active = true ∧ (∀ t ∈ sel, userHasTitle db u t = true) ∧
        ((cf.contains ("discord") = true ∧ u.discord ≠ "") ∨
         (cf.contains ("telegram") = true ∧ u.telegram ≠ "")) := by
  unfold find_game
  have hne : cf.isEmpty = false := by
    cases cf with
    | nil => exact absurd rfl h
    | cons a l => rfl
  rw [hne]
  simp only [Bool.false_eq_true, if_false, List.mem_filter]
  rw [mem_foldl_filter (fun t v => userHasTitle db v t) sel]
  simp only [List.mem_filter, hasRequiredContact, Bool.or_eq_true, Bool.and_eq_true,
    Bool.not_eq_true', beq_eq_false_iff_ne, ne_eq, and_assoc]

/-- C1: `find_game` with no contact filter returns exactly the active users
owning every selected title (superset semantics); inactive users are never
returned for any filter combination; and with no selected titles and no
contact filter the result is exactly the active-user listing. -/
theorem c1_find_game_superset (db : DB) (sel cf : List String) :
    (∀ u, u ∈ find_game db sel [] ↔
        u ∈ db.users ∧ u.is_active = true ∧ ∀ t ∈ sel, userHasTitle db u t = true)
    ∧ (∀ u, u ∈ find_game db sel cf → u.is_active = true)
    ∧ find_game db [] [] = db.users.filter (fun u => u.is_active) := by
  refine ⟨fun u => mem_find_game_no_contact db sel u,
    fun u hu => (mem_find_game_active db sel cf u hu).2, rfl⟩

/-- C2: with a non-empty contact filter the result is the conjunction of the
game stage (active + superset of the selected titles) and the union-style
contact condition: at least one requested channel among discord and telegram
is populated. -/
theorem c2_contact_union (db : DB) (sel cf : List String) (h : cf ≠ []) :
    ∀ u, u ∈ find_game db sel cf ↔
      u ∈ db.users ∧ u.is_active = true ∧ (∀ t ∈ sel, userHasTitle db u t = true) ∧
        ((cf.contains ("discord") = true ∧ u.discord ≠ "") ∨
         (cf.contains ("telegram") = true ∧ u.telegram ≠ "")) :=
  fun u => mem_find_game_contact db sel cf u h

/-- Concrete witness database for the matchmaking claims. -/
def dbMatch : DB :=
  { users :=
      [{ id := 1, username := "alice", email := "a@mail.com", discord := "ali#1" },
       { id := 2, username := "bob", email := "b@mail.com" },
       { id := 3, username := "carol", email := "c@mail.com", is_active := false }],
    games :=
      [{ id := 1, game_title := "Dota 2", user_id := 1 },
       { id := 2, game_title := "Minecraft", user_id := 1 },
       { id := 3, game_title := "Dota 2", user_id := 2 }],
    messages := [] }

/-- Witness for C2 at a concrete database and filter. -/
theorem c2_contact_union_witness :
    (["discord"] : List String) ≠ [] ∧
      (∀ u, u ∈ find_game dbMatch ["Dota 2"] ["discord"] ↔
        u ∈ dbMatch.users ∧ u.is_active = true ∧
          (∀ t ∈ (["Dota 2"] : List String), userHasTitle dbMatch u t = true) ∧
          (((["discord"] : List String).contains ("discord") = true ∧ u.discord ≠ "") ∨
           ((["discord"] : List String).contains ("telegram") = true ∧ u.telegram ≠ ""))) :=
  ⟨by decide, c2_contact_union dbMatch ["Dota 2"] ["discord"] (by decide)⟩

/-! ## Messaging ledger -/

/-- The whitespace class of Python `str.strip()`. -/
def pyWhitespace (c : Char) : Bool :=
  c == ' ' || c == '\t' || c == '\n' || c == '\r' || c == '\x0b' || c == '\x0c'

/-- Python `str.strip()`: drop whitespace from both ends. -/
def pyStrip (s : String) : String :=
  ⟨((s.toList.dropWhile pyWhitespace).reverse.dropWhile pyWhitespace).reverse⟩

/-- Python `str.lower()`. -/
def pyLower (s : String) : String := ⟨s.toList.map Char.toLower⟩

/-- Failure modes of the `/chat/<username>` route. -/
inductive ChatError
  | notFound   -- `first_or_404` on an unknown or inactive handle
  | selfChat   -- redirect: a user cannot open a chat with themselves
deriving DecidableEq

/-- Failure modes of the `/send_message/<username>` route. -/
inductive SendError
  | notFound
  | selfMessage
  | emptyContent
  | tooLong
deriving DecidableEq

/-- The read-marking update of `chat` (App.py lines 362-367): flip
`is_read` on every unread message from the counterpart to the reader. -/
def markRead (other_id current_id : Nat) (m : Message) : Message :=
  if m.sender_id == other_id && m.receiver_id == current_id && m.is_read == false
  then { m with is_read := true } else m

/-- Timestamp order used by `order_by(Message.timestamp.asc())`. -/
def tsLe (a b : Message) : Prop := a.timestamp ≤ b.timestamp

instance : DecidableRel tsLe := fun a b => Nat.decLe a.timestamp b.timestamp

instance : IsTotal Message tsLe := ⟨fun a b => Nat.le_total a.timestamp b.timestamp⟩

instance : IsTrans Message tsLe := ⟨fun _ _ _ => Nat.le_trans⟩

/-- The bidirectional-history predicate of `chat` (App.py lines 370-373). -/
def betweenUsers (a b : Nat) (m : Message) : Bool :=
  (m.sender_id == a && m.receiver_id == b) || (m.sender_id == b && m.receiver_id == a)

/-- The `/chat/<username>` route (App.py lines 350-377): resolve the
counterpart among active users (404 otherwise), refuse self-chat, mark the
unread messages from the counterpart as read, and return the updated store
together with the bidirectional history sorted by ascending timestamp. -/
def chat (db : DB) (current_user_id : Nat) (username : String) :
    Except ChatError (DB × List Message) :=
  match db.users.find? (fun u => u.username == username && u.is_active) with
  | none => .error .notFound
  | some other_user =>
    if other_user.id == current_user_id then .error .selfChat
    else
      let db' : DB :=
        { db with messages := db.messages.map (markRead other_user.id current_user_id) }
      let history :=
        List.insertionSort tsLe
          (db'.messages.filter (betweenUsers current_user_id other_user.id))
      .ok (db', history)

/-- Autoincrement primary key for a new message row. -/
def nextMessageId (db : DB) : Nat :=
  db.messages.foldl (fun a m => max a (m.id + 1)) 1

/-- The `/send_message/<username>` route (App.py lines 379-406): resolve the
counterpart among active users (404 otherwise), refuse self-messaging, strip
the content, reject an empty or over-1000-character result, otherwise persist
one new unread message.  `now` is the `func.now()` timestamp. -/
def send_message (db : DB) (current_user_id : Nat) (username : String)
    (rawContent : String) (now : Nat) : Except SendError DB :=
  match db.users.find? (fun u => u.username == username && u.is_active) with
  | none => .error .notFound
  | some other_user =>
    if other_user.id == current_user_id then .error .selfMessage
    else
      let content := pyStrip rawContent
      if content == "" then .error .emptyContent
      else if content.length > 1000 then .error .tooLong
      else
        .ok { db with messages := db.messages ++
          [{ id := nextMessageId db, sender_id := current_user_id,
             receiver_id := other_user.id, content := content,
             timestamp := now, is_read := false }] }

/-- The `/api/unread_count` route (App.py lines 408-416): unread messages
addressed to the user. -/
def unread_count (db : DB) (uid : Nat) : Nat :=
  db.messages.countP (fun m => m.receiver_id == uid && m.is_read == false)

/-- Unread messages from one specific sender to a receiver (the set `chat`
marks as read; also the per-counterpart count of `/messages`). -/
def unread_from (db : DB) (sid rid : Nat) : Nat :=
  db.messages.countP (fun m => m.sender_id == sid && m.receiver_id == rid && m.is_read == false)

/-- The `/delete_user/<username>` route (App.py lines 298-310): soft delete,
flipping `is_active` to false; no row is removed. -/
def delete_user (db : DB) (username : String) : DB :=
  { db with users := db.users.map (fun u =>
      if u.username == username then { u with is_active := false } else u) }

/-- After `markRead`, any message from the counterpart to the reader carries a
true read flag (it was either just flipped or already read). -/
lemma markRead_to_reader (o r : Nat) (m : Message) :
    (markRead o r m).sender_id = o → (markRead o r m).receiver_id = r →
    (markRead o r m).is_read = true := by
  unfold markRead
  split
  · intro _ _; rfl
  next hc =>
    intro hs hr
    simp only [Bool.and_eq_true, beq_iff_eq, not_and, Bool.not_eq_false] at hc
    exact hc ⟨hs, hr⟩

/-- `markRead` changes nothing but the read flag, and the read flag only on
messages from the counterpart to the reader. -/
lemma markRead_preserves (o r : Nat) (m : Message) :
    (markRead o r m).id = m.id ∧ (markRead o r m).sender_id = m.sender_id ∧
    (markRead o r m).receiver_id = m.receiver_id ∧
    (markRead o r m).content = m.content ∧
    (markRead o r m).timestamp = m.timestamp ∧
    (¬(m.sender_id = o ∧ m.receiver_id = r) →
      (markRead o r m).is_read = m.is_read) := by
  unfold markRead
  split
  next hc =>
    simp only [Bool.and_eq_true, beq_iff_eq] at hc
    exact ⟨rfl, rfl, rfl, rfl, rfl, fun hn => absurd ⟨hc.1.1, hc.1.2⟩ hn⟩
  next => exact ⟨rfl, rfl, rfl, rfl, rfl, fun _ => rfl⟩

/-- Pointwise accounting for the read-marking pass: an unread-to-reader
message either came from the counterpart (and is counted by the second
summand) or survives as unread in the updated store. -/
lemma markRead_point (o r : Nat) (m : Message) :
    (if ((markRead o r m).receiver_id == r && (markRead o r m).is_read == false) = true
       then 1 else 0)
      + (if (m.sender_id == o && m.receiver_id == r && m.is_read == false) = true
           then 1 else 0)
      = (if (m.receiver_id == r && m.is_read == false) = true then 1 else 0) := by
  by_cases h1 : m.sender_id = o <;> by_cases h2 : m.receiver_id = r <;>
    by_cases h3 : m.is_read = false <;>
    simp [markRead, h1, h2, h3]

/-- Counting unread messages for the reader before and after the read-marking
pass of `chat`: the pass removes exactly the unread messages coming from the
counterpart. -/
lemma countP_markRead (o r : Nat) :
    ∀ l : List Message,
      (l.map (markRead o r)).countP (fun m => m.receiver_id == r && m.is_read == false)
        + l.countP (fun m => m.sender_id == o && m.receiver_id == r && m.is_read == false)
      = l.countP (fun m => m.receiver_id == r && m.is_read == false) := by
  intro l
  induction l with
  | nil => rfl
  | cons m t ih =>
      simp only [List.map_cons, List.countP_cons]
      have hp := markRead_point o r m
      omega

/-- After the read-marking pass there is no unread message left from the
counterpart to the reader. -/
lemma unread_from_markRead_zero (o r : Nat) (l : List Message) :
    (l.map (markRead o r)).countP
      (fun m => m.sender_id == o && m.receiver_id == r && m.is_read == false) = 0 := by
  rw [List.countP_eq_zero]
  intro a ha
  obtain ⟨m0, _, rfl⟩ := List.mem_map.1 ha
  intro hcontra
  simp only [Bool.and_eq_true, beq_iff_eq] at hcontra
  have hread := markRead_to_reader o r m0 hcontra.1.1 hcontra.1.2
  rw [hread] at hcontra
  exact absurd hcontra.2 (by decide)

/-- C5: opening a conversation succeeds for an active counterpart distinct
from the reader; it marks every unread message from the counterpart to the
reader as read, touches no other field and no other message's read flag,
lowers the reader's unread total by exactly the counterpart's unread count
(leaving zero unread from the counterpart), and returns the bidirectional
history between the two, sorted by ascending timestamp. -/
theorem c5_open_conversation (db : DB) (rid : Nat) (uname : String) (other : User)
    (hfind : db.users.find? (fun u => u.username == uname && u.is_active) = some other)
    (hne : ¬ other.id = rid) :
    ∃ db' hist, chat db rid uname = .ok (db', hist)
      ∧ (∀ m ∈ db'.messages, m.sender_id = other.id → m.receiver_id = rid →
           m.is_read = true)
      ∧ List.Forall₂ (fun m m' =>
            m'.id = m.id ∧ m'.sender_id = m.sender_id ∧ m'.receiver_id = m.receiver_id ∧
            m'.content = m.content ∧ m'.timestamp = m.timestamp ∧
            (¬(m.sender_id = other.id ∧ m.receiver_id = rid) → m'.is_read = m.is_read))
          db.messages db'.messages
      ∧ unread_count db rid = unread_count db' rid + unread_from db other.id rid
      ∧ unread_from db' other.id rid = 0
      ∧ hist.Pairwise tsLe
      ∧ hist.Perm (db'.messages.filter (betweenUsers rid other.id)) := by
  have hbeq : (other.id == rid) = false := by
    simp only [beq_eq_false_iff_ne, ne_eq]; exact hne
  refine ⟨{ db with messages := db.messages.map (markRead other.id rid) },
      List.insertionSort tsLe
        ((db.messages.map (markRead other.id rid)).filter (betweenUsers rid other.id)),
      ?_, ?_, ?_, ?_, ?_, ?_, ?_⟩
  · unfold chat
    rw [hfind]
    simp only [hbeq, Bool.false_eq_true, if_false]
  · intro m hm
    obtain ⟨m0, _, rfl⟩ := List.mem_map.1 hm
    exact markRead_to_reader other.id rid m0
  · rw [List.forall₂_map_right_iff]
    rw [List.forall₂_same]
    intro m _
    exact markRead_preserves other.id rid m
  · have := countP_markRead other.id rid db.messages
    unfold unread_count unread_from
    dsimp only
    omega
  · exact unread_from_markRead_zero other.id rid db.messages
  · exact List.sorted_insertionSort tsLe _
  · exact List.perm_insertionSort tsLe _

/-- When no active user holds the handle, the `filter_by(username=...,
is_active=True).first_or_404()` lookup comes back empty. -/
lemma find_active_none (db : DB) (uname : String)
    (h : ∀ u ∈ db.users, ¬(u.username = uname ∧ u.is_active = true)) :
    db.users.find? (fun u => u.username == uname && u.is_active) = none := by
  rw [List.find?_eq_none]
  intro u hu
  simp only [Bool.and_eq_true, beq_iff_eq, not_and]
  intro h1 h2
  exact absurd ⟨h1, h2⟩ (h u hu)

/-- C10: when the handle resolves to no active user (unknown, or soft
deleted), both `chat` and `send_message` fail with the 404-style NotFound —
not a validation error — before touching any message row. -/
theorem c10_inactive_counterpart (db : DB) (rid : Nat) (uname content : String)
    (now : Nat)
    (h : ∀ u ∈ db.users, ¬(u.username = uname ∧ u.is_active = true)) :
    chat db rid uname = .error .notFound ∧
      send_message db rid uname content now = .error .notFound := by
  have hfind := find_active_none db uname h
  constructor
  · unfold chat; rw [hfind]
  · unfold send_message; rw [hfind]

/-- C6: with the counterpart handle resolving to an active user, sending
fails with a validation error exactly when it is a self-message, the trimmed
content is empty, or the trimmed content exceeds 1000 characters; a
successful send changes neither users nor games and appends exactly one new
message carrying a false read flag. -/
theorem c6_send_validation (db : DB) (cid : Nat) (uname content : String)
    (now : Nat) (other : User)
    (hfind : db.users.find? (fun u => u.username == uname && u.is_active) = some other) :
    ((send_message db cid uname content now = .error .selfMessage ∨
      send_message db cid uname content now = .error .emptyContent ∨
      send_message db cid uname content now = .error .tooLong) ↔
        (other.id = cid ∨ pyStrip content = "" ∨ 1000 < (pyStrip content).length)) ∧
    (∀ db', send_message db cid uname content now = .ok db' →
       db'.users = db.users ∧ db'.games = db.games ∧
       ∃ m, db'.messages = db.messages ++ [m] ∧ m.is_read = false ∧
         m.sender_id = cid ∧ m.receiver_id = other.id ∧ m.content = pyStrip content) := by
  unfold send_message
  rw [hfind]
  by_cases h1 : other.id = cid
  · simp [h1]
  · by_cases h2 : pyStrip content = ""
    · simp [h1, h2]
    · by_cases h3 : 1000 < (pyStrip content).length
      · simp [h1, h2, h3]
      · simp only [h1, h2, h3, beq_iff_eq, if_false, gt_iff_lt, beq_eq_false_iff_ne,
          ne_eq, not_false_eq_true, if_neg, false_or, iff_false]
        constructor
        · simp [h1, h2, h3, beq_eq_false_iff_ne]
        · intro db' hdb'
          injection hdb' with hX
          subst hX
          exact ⟨rfl, rfl, _, rfl, rfl, rfl, rfl, rfl⟩

/-- Concrete witness database for the messaging claims: two unread messages
from bob (id 2) to alice (id 1), one already-read reply. -/
def userBob : User := { id := 2, username := "bob", email := "b@chat.com" }

/-- Messaging witness store. -/
def dbChat : DB :=
  { users := [{ id := 1, username := "alice", email := "a@chat.com" }, userBob],
    games := [],
    messages :=
      [{ id := 1, sender_id := 2, receiver_id := 1, content := "hey", timestamp := 2 },
       { id := 2, sender_id := 2, receiver_id := 1, content := "yo", timestamp := 1 },
       { id := 3, sender_id := 1, receiver_id := 2, content := "hi", timestamp := 0,
         is_read := true }] }

/-- Witness for C5 at the concrete messaging store. -/
theorem c5_open_conversation_witness :
    (dbChat.users.find? (fun u => u.username == "bob" && u.is_active) = some userBob) ∧
    (¬ userBob.id = 1) ∧
    (∃ db' hist, chat dbChat 1 ("bob") = .ok (db', hist)
      ∧ (∀ m ∈ db'.messages, m.sender_id = userBob.id → m.receiver_id = 1 →
           m.is_read = true)
      ∧ List.Forall₂ (fun m m' =>
            m'.id = m.id ∧ m'.sender_id = m.sender_id ∧ m'.receiver_id = m.receiver_id ∧
            m'.content = m.content ∧ m'.timestamp = m.timestamp ∧
            (¬(m.sender_id = userBob.id ∧ m.receiver_id = 1) → m'.is_read = m.is_read))
          dbChat.messages db'.messages
      ∧ unread_count dbChat 1 = unread_count db' 1 + unread_from dbChat userBob.id 1
      ∧ unread_from db' userBob.id 1 = 0
      ∧ hist.Pairwise tsLe
      ∧ hist.Perm (db'.messages.filter (betweenUsers 1 userBob.id))) :=
  ⟨by decide, by decide, c5_open_conversation dbChat 1 ("bob") userBob (by decide) (by decide)⟩

/-- Witness for C6 at a concrete self-message attempt. -/
theorem c6_send_validation_witness :
    (dbChat.users.find? (fun u => u.username == "bob" && u.is_active) = some userBob) ∧
    (((send_message dbChat 2 ("bob") ("hi") 5 = .error .selfMessage ∨
       send_message dbChat 2 ("bob") ("hi") 5 = .error .emptyContent ∨
       send_message dbChat 2 ("bob") ("hi") 5 = .error .tooLong) ↔
         (userBob.id = 2 ∨ pyStrip ("hi") = "" ∨ 1000 < (pyStrip ("hi")).length)) ∧
     (∀ db', send_message dbChat 2 ("bob") ("hi") 5 = .ok db' →
        db'.users = dbChat.users ∧ db'.games = dbChat.games ∧
        ∃ m, db'.messages = dbChat.messages ++ [m] ∧ m.is_read = false ∧
          m.sender_id = 2 ∧ m.receiver_id = userBob.id ∧ m.content = pyStrip ("hi"))) :=
  ⟨by decide, c6_send_validation dbChat 2 ("bob") ("hi") 5 userBob (by decide)⟩

/-- Witness for C10 at a concrete store: carol is soft-deleted. -/
theorem c10_inactive_counterpart_witness :
    (∀ u ∈ dbMatch.users, ¬(u.username = "carol" ∧ u.is_active = true)) ∧
    (chat dbMatch 1 ("carol") = .error .notFound ∧
      send_message dbMatch 1 ("carol") ("hi") 7 = .error .notFound) :=
  ⟨by decide, c10_inactive_counterpart dbMatch 1 ("carol") ("hi") 7 (by decide)⟩

/-- An active user of the post-soft-delete store never carries the deleted
handle. -/
lemma delete_user_active (db : DB) (uname : String) (u : User)
    (hu : u ∈ (delete_user db uname).users) (ha : u.is_active = true) :
    u.username ≠ uname := by
  unfold delete_user at hu
  obtain ⟨u0, _, rfl⟩ := List.mem_map.1 hu
  by_cases hb : (u0.username == uname) = true
  · rw [if_pos hb] at ha
    simp at ha
  · rw [if_neg hb]
    simpa using hb

/-- C3 counterexample: in a store where bob and alice exchanged messages,
soft-deleting bob keeps every message row, yet alice's
`openConversation(alice, bob)` now fails with NotFound instead of returning
the history — the claim's "remains retrievable via openConversation" is
false on the code. -/
theorem c3_counterexample :
    (delete_user dbChat ("bob")).messages = dbChat.messages ∧
      chat (delete_user dbChat ("bob")) 1 ("bob") = .error .notFound :=
  ⟨rfl, rfl⟩

/-- C3 amended: after a soft delete the user appears in neither `find_game`
results nor the landing-page listing, and every historical message row is
preserved verbatim in the store; however `chat` (openConversation) with the
deleted user's handle fails with NotFound, so the counterpart can no longer
open that conversation. -/
theorem c3_soft_delete_amended (db : DB) (uname : String) (rid : Nat)
    (sel cf : List String) :
    (∀ u ∈ find_game (delete_user db uname) sel cf, u.username ≠ uname)
    ∧ (∀ u ∈ home (delete_user db uname), u.username ≠ uname)
    ∧ (delete_user db uname).messages = db.messages
    ∧ chat (delete_user db uname) rid uname = .error .notFound := by
  refine ⟨?_, ?_, rfl, ?_⟩
  · intro u hu
    have h := mem_find_game_active (delete_user db uname) sel cf u hu
    exact delete_user_active db uname u h.1 h.2
  · intro u hu
    rw [home, List.mem_filter] at hu
    exact delete_user_active db uname u hu.1 hu.2
  · have hfind := find_active_none (delete_user db uname) uname ?_
    · unfold chat; rw [hfind]
    · intro u hu hc
      exact absurd hc.1 (delete_user_active db uname u hu hc.2)

/-! ## Registration and validation -/

/-- The inline error messages of `register`, one per failing check. -/
inductive RegError
  | usernameTooShort
  | usernameTooLong
  | usernameBadChars
  | badEmail
  | passwordTooShort
  | passwordMismatch
  | usernameTaken
  | emailTaken
deriving DecidableEq

/-- Python `$` in `re.match` also matches just before one trailing newline;
strip such a newline before the character-class test. -/
def stripTrailingNewline (s : List Char) : List Char :=
  match s.reverse with
  | [] => s
  | c :: rest => if c == '\n' then rest.reverse else s

/-- The class `[a-zA-Z0-9_]`. -/
def usernameChar (c : Char) : Bool := c.isAlphanum || c == '_'

/-- `re.match(r'^[a-zA-Z0-9_]+$', s)` (App.py line 77). -/
def pyUsernameMatch (s : String) : Bool :=
  let t := stripTrailingNewline s.toList
  !t.isEmpty && t.all usernameChar

/-- `validate_username` (App.py lines 72-79). -/
def validate_username (username : String) : Option RegError :=
  if username.length < 3 then some .usernameTooShort
  else if username.length > 20 then some .usernameTooLong
  else if !(pyUsernameMatch username) then some .usernameBadChars
  else none

/-- The class `[a-zA-Z0-9._%+-]`. -/
def emailLocalChar (c : Char) : Bool :=
  c.isAlphanum || c == '.' || c == '_' || c == '%' || c == '+' || c == '-'

/-- The class `[a-zA-Z0-9.-]`. -/
def emailDomainChar (c : Char) : Bool :=
  c.isAlphanum || c == '.' || c == '-'

/-- `[a-zA-Z0-9.-]+\.[a-zA-Z]{2,}`, decided at the last dot: the TLD chunk
the regex captures is all-alpha and hence dot-free, so any successful
backtracking split is exactly the last-dot split. -/
def emailDomainMatch (r : List Char) : Bool :=
  let revTld := r.reverse.takeWhile (fun c => !(c == '.'))
  match r.reverse.dropWhile (fun c => !(c == '.')) with
  | '.' :: revDom =>
      !revDom.isEmpty && revDom.all emailDomainChar &&
        decide (2 ≤ revTld.length) && revTld.all Char.isAlpha
  | _ => false

/-- `re.match(r'^[a-zA-Z0-9._%+-]+@[a-zA-Z0-9.-]+\.[a-zA-Z]{2,}$', s)`
(App.py line 82), decided at the unique `@` (no character class of the
pattern contains `@`). -/
def pyEmailMatch (email : String) : Bool :=
  let s := stripTrailingNewline email.toList
  let lpart := s.takeWhile (fun c => !(c == '@'))
  match s.dropWhile (fun c => !(c == '@')) with
  | '@' :: r => !lpart.isEmpty && lpart.all emailLocalChar && emailDomainMatch r
  | _ => false

/-- `validate_email` (App.py lines 81-84). -/
def validate_email (email : String) : Option RegError :=
  if !(pyEmailMatch email) then some .badEmail else none

/-- `validate_password` (App.py lines 86-89). -/
def validate_password (password : String) : Option RegError :=
  if password.length < 6 then some .passwordTooShort else none

/-- The werkzeug password hasher, an external collaborator; its output is
irrelevant to every claim, only that something is stored. -/
def generate_password_hash (password : String) : String :=
  String.append ("hashed:") password

/-- Autoincrement primary key for a new user row. -/
def nextUserId (db : DB) : Nat :=
  db.users.foldl (fun a u => max a (u.id + 1)) 1

/-- The four-check validation chain of `register` (App.py lines 165-172), in
source order with `elif` short-circuiting. -/
def registerValidation (username email password confirm_password : String) :
    Option RegError :=
  match validate_username username with
  | some e => some e
  | none =>
    match validate_email email with
    | some e => some e
    | none =>
      match validate_password password with
      | some e => some e
      | none => if password ≠ confirm_password then some .passwordMismatch else none

/-- The `/register` POST handler (App.py lines 156-187): strip the handle,
strip-and-lowercase the email, run the validation chain, then the two
duplicate checks — `User.query.filter_by(...)` carries no `is_active`
filter, so soft-deleted rows also count — and finally insert the new active
user. -/
def register (db : DB) (username0 email0 password confirm_password : String) :
    Except RegError (DB × User) :=
  let username := pyStrip username0
  let email := pyLower (pyStrip email0)
  match registerValidation username email password confirm_password with
  | some e => .error e
  | none =>
    if db.users.any (fun u => u.username == username) then .error .usernameTaken
    else if db.users.any (fun u => u.email == email) then .error .emailTaken
    else
      let user : User :=
        { id := nextUserId db, username := username, email := email,
          password_hash := generate_password_hash password }
      .ok ({ db with users := db.users ++ [user] }, user)

/-- A store whose only user is soft-deleted yet still holds a handle and an
email. -/
def dbGhost : DB :=
  { users := [{ id := 1, username := "ghost_user", email := "ghost@mail.com",
                is_active := false }],
    games := [], messages := [] }

/-- C4 counterexample: the duplicate checks of `register` carry no
`is_active` filter, so a handle held only by a soft-deleted account still
blocks an otherwise-valid registration — the code answers Conflict where the
claim promises success. -/
theorem c4_counterexample :
    register dbGhost ("ghost_user") ("fresh@mail.com") ("secret1") ("secret1")
      = .error .usernameTaken := rfl

/-- C4 amended: a registration passing format validation is rejected as a
duplicate exactly when ANY existing row — active or soft-deleted — holds the
submitted handle or the submitted (lowercased) email; on success precisely
one new active user is appended carrying those values, and on a duplicate
error the store is untouched. -/
theorem c4_duplicate_policy (db : DB) (username0 email0 password confirm : String)
    (hval : registerValidation (pyStrip username0) (pyLower (pyStrip email0)) password confirm
      = none) :
    ((register db username0 email0 password confirm = .error .usernameTaken ∨
      register db username0 email0 password confirm = .error .emailTaken) ↔
        ((∃ x ∈ db.users, x.username = pyStrip username0) ∨
         (∃ x ∈ db.users, x.email = pyLower (pyStrip email0)))) ∧
    (∀ db' nu, register db username0 email0 password confirm = .ok (db', nu) →
       db'.users = db.users ++ [nu] ∧ db'.games = db.games ∧
         db'.messages = db.messages ∧ nu.username = pyStrip username0 ∧
         nu.email = pyLower (pyStrip email0) ∧ nu.is_active = true) := by
  unfold register
  dsimp only
  rw [hval]
  dsimp only
  by_cases h1 : (db.users.any (fun u => u.username == pyStrip username0)) = true
  · rw [if_pos h1]
    simp only [List.any_eq_true, beq_iff_eq] at h1
    constructor
    · constructor
      · intro _; exact Or.inl h1
      · intro _; exact Or.inl rfl
    · intro db' nu h; exact absurd h (by simp)
  · rw [if_neg h1]
    by_cases h2 : (db.users.any (fun u => u.email == pyLower (pyStrip email0))) = true
    · rw [if_pos h2]
      simp only [List.any_eq_true, beq_iff_eq] at h2
      constructor
      · constructor
        · intro _; exact Or.inr h2
        · intro _; exact Or.inr rfl
      · intro db' nu h; exact absurd h (by simp)
    · rw [if_neg h2]
      simp only [List.any_eq_true, beq_iff_eq] at h1 h2
      constructor
      · constructor
        · intro h; rcases h with h | h <;> exact absurd h (by simp)
        · intro h; rcases h with h | h
          · exact absurd h h1
          · exact absurd h h2
      · intro db' nu h
        injection h with hpair
        injection hpair with hdb hnu
        subst hdb; subst hnu
        exact ⟨rfl, rfl, rfl, rfl, rfl, rfl⟩

/-- Witness for C4's amended duplicate policy: registering bob's handle a
second time against the matchmaking store. -/
theorem c4_duplicate_policy_witness :
    (registerValidation (pyStrip ("bob")) (pyLower (pyStrip ("b2@mail.com"))) ("secret1")
       ("secret1") = none) ∧
    (((register dbMatch ("bob") ("b2@mail.com") ("secret1") ("secret1")
          = .error .usernameTaken ∨
       register dbMatch ("bob") ("b2@mail.com") ("secret1") ("secret1")
          = .error .emailTaken) ↔
        ((∃ x ∈ dbMatch.users, x.username = pyStrip ("bob")) ∨
         (∃ x ∈ dbMatch.users, x.email = pyLower (pyStrip ("b2@mail.com"))))) ∧
     (∀ db' nu, register dbMatch ("bob") ("b2@mail.com") ("secret1") ("secret1")
          = .ok (db', nu) →
        db'.users = dbMatch.users ++ [nu] ∧ db'.games = dbMatch.games ∧
          db'.messages = dbMatch.messages ∧ nu.username = pyStrip ("bob") ∧
          nu.email = pyLower (pyStrip ("b2@mail.com")) ∧ nu.is_active = true)) :=
  ⟨by decide, c4_duplicate_policy dbMatch ("bob") ("b2@mail.com") ("secret1")
      ("secret1") (by decide)⟩

/-- On a string without a trailing newline (every stripped registration
input), the Python anchors reduce to a plain whole-string test. -/
lemma stripTrailingNewline_id (l : List Char) (hnl : l.getLast? ≠ some '\n') :
    stripTrailingNewline l = l := by
  unfold stripTrailingNewline
  cases hrev : l.reverse with
  | nil => rfl
  | cons c rest =>
      have hc : ¬((c == '\n') = true) := by
        intro hcc
        apply hnl
        rw [← List.head?_reverse, hrev, List.head?_cons, beq_iff_eq.1 hcc]
      dsimp only
      rw [if_neg hc]

/-- The `validate_username` pass condition coincides with the spec's
anchored pattern `[A-Za-z0-9_]{3,20}` on newline-free input. -/
lemma validate_username_regex (u : String) (hnl : u.toList.getLast? ≠ some '\n') :
    validate_username u = none ↔
      (3 ≤ u.length ∧ u.length ≤ 20 ∧ ∀ ch ∈ u.toList, usernameChar ch = true) := by
  have hlen : u.length = u.toList.length := rfl
  have hmatch : pyUsernameMatch u =
      (!u.toList.isEmpty && u.toList.all usernameChar) := by
    unfold pyUsernameMatch
    rw [stripTrailingNewline_id u.toList hnl]
  unfold validate_username
  rw [hmatch]
  by_cases h1 : u.length < 3
  · rw [if_pos h1]
    constructor
    · intro h; exact absurd h (by simp)
    · intro h; omega
  · rw [if_neg h1]
    by_cases h2 : u.length > 20
    · rw [if_pos h2]
      constructor
      · intro h; exact absurd h (by simp)
      · intro h; omega
    · rw [if_neg h2]
      cases hX : (!u.toList.isEmpty && u.toList.all usernameChar) with
      | true =>
          rw [if_neg (by decide)]
          simp only [Bool.and_eq_true, Bool.not_eq_true', List.isEmpty_eq_false,
            List.all_eq_true] at hX
          exact iff_of_true rfl ⟨by omega, by omega, hX.2⟩
      | false =>
          rw [if_pos (by decide)]
          constructor
          · intro h; exact absurd h (by simp)
          · intro h
            obtain ⟨h3le, _, hall⟩ := h
            have hXtrue : (!u.toList.isEmpty && u.toList.all usernameChar) = true := by
              simp only [Bool.and_eq_true, Bool.not_eq_true', List.isEmpty_eq_false,
                List.all_eq_true]
              refine ⟨?_, hall⟩
              intro hempty
              have hzero : u.length = 0 := by rw [hlen, hempty]; rfl
              omega
            rw [hX] at hXtrue
            exact absurd hXtrue (by decide)

/-- C9: the four registration format checks run in the fixed source order of
handle, email, password length, confirmation match; the first failing check's
error is the result and every later check is skipped (its input is not even
inspected); the chain passes exactly when all four pass; and the handle check
passes exactly on the spec's anchored pattern `[A-Za-z0-9_]{3,20}` (stated
for inputs without a trailing newline — `register` strips its input, so this
covers every registration). -/
theorem c9_validation_order (u e p c : String)
    (hnl : u.toList.getLast? ≠ some '\n') :
    (∀ er, validate_username u = some er → registerValidation u e p c = some er)
    ∧ (∀ er, validate_username u = none → validate_email e = some er →
        registerValidation u e p c = some er)
    ∧ (∀ er, validate_username u = none → validate_email e = none →
        validate_password p = some er → registerValidation u e p c = some er)
    ∧ (validate_username u = none → validate_email e = none →
        validate_password p = none → p ≠ c →
        registerValidation u e p c = some .passwordMismatch)
    ∧ (registerValidation u e p c = none ↔
        (validate_username u = none ∧ validate_email e = none ∧
         validate_password p = none ∧ p = c))
    ∧ (validate_username u = none ↔
        (3 ≤ u.length ∧ u.length ≤ 20 ∧ ∀ ch ∈ u.toList, usernameChar ch = true)) := by
  refine ⟨?_, ?_, ?_, ?_, ?_, validate_username_regex u hnl⟩
  · intro er h; unfold registerValidation; rw [h]
  · intro er h0 h; unfold registerValidation; rw [h0, h]
  · intro er h0 h1 h; unfold registerValidation; rw [h0, h1, h]
  · intro h0 h1 h2 hne; unfold registerValidation; rw [h0, h1, h2, if_pos hne]
  · unfold registerValidation
    cases h0 : validate_username u with
    | some er => simp [h0]
    | none =>
        cases h1 : validate_email e with
        | some er => simp
        | none =>
            cases h2 : validate_password p with
            | some er => simp
            | none =>
                by_cases hc : p = c
                · rw [if_neg (by simpa using hc)]; simp [hc]
                · rw [if_pos hc]; simp [hc]

/-- Witness for C9 at concrete registration inputs. -/
theorem c9_validation_order_witness :
    (("gamer_01") : String).toList.getLast? ≠ some '\n' ∧
    ((∀ er, validate_username ("gamer_01") = some er →
        registerValidation ("gamer_01") ("g@mail.com") ("secret1") ("secret1") = some er)
    ∧ (∀ er, validate_username ("gamer_01") = none →
        validate_email ("g@mail.com") = some er →
        registerValidation ("gamer_01") ("g@mail.com") ("secret1") ("secret1") = some er)
    ∧ (∀ er, validate_username ("gamer_01") = none →
        validate_email ("g@mail.com") = none →
        validate_password ("secret1") = some er →
        registerValidation ("gamer_01") ("g@mail.com") ("secret1") ("secret1") = some er)
    ∧ (validate_username ("gamer_01") = none → validate_email ("g@mail.com") = none →
        validate_password ("secret1") = none → ("secret1") ≠ ("secret1") →
        registerValidation ("gamer_01") ("g@mail.com") ("secret1") ("secret1")
          = some .passwordMismatch)
    ∧ (registerValidation ("gamer_01") ("g@mail.com") ("secret1") ("secret1") = none ↔
        (validate_username ("gamer_01") = none ∧ validate_email ("g@mail.com") = none ∧
         validate_password ("secret1") = none ∧ ("secret1") = ("secret1")))
    ∧ (validate_username ("gamer_01") = none ↔
        (3 ≤ (("gamer_01") : String).length ∧ (("gamer_01") : String).length ≤ 20 ∧
          ∀ ch ∈ (("gamer_01") : String).toList, usernameChar ch = true))) :=
  ⟨by decide, c9_validation_order ("gamer_01") ("g@mail.com") ("secret1") ("secret1")
      (by decide)⟩

/-! ## Authorization guard, profile edit, game add -/

/-- Outcome of the decorator-based guards. -/
inductive GuardResult
  | redirectLogin          -- no session: redirect to login
  | notFound               -- `first_or_404` on the target handle
  | forbidden              -- session present but wrong identity
  | ok (uid : Nat)
deriving DecidableEq

/-- The `ownership_required` decorator (App.py lines 102-117): require a
session, resolve the target handle to a user row — with no `is_active`
filter — and refuse whenever that row's id differs from the session id. -/
def ownership_required (db : DB) (sid? : Option Nat) (username : String) :
    GuardResult :=
  match sid? with
  | none => .redirectLogin
  | some sid =>
    match db.users.find? (fun u => u.username == username) with
    | none => .notFound
    | some target => if target.id != sid then .forbidden else .ok sid

/-- Python `s[:n]`: the first `n` characters. -/
def pyTake (n : Nat) (s : String) : String := ⟨s.toList.take n⟩

/-- The POST form fields of `edit_profile`. -/
structure ProfileForm where
  description : String
  contact : String
  discord : String
  telegram : String
  preferred_role : String
deriving DecidableEq

/-- The `/edit_profile/<username>` POST handler (App.py lines 200-217),
guards included: on passing `login_required` and `ownership_required` the
five free-text fields are overwritten (truncated to the column widths);
any guard failure leaves the store untouched. -/
def edit_profile (db : DB) (sid? : Option Nat) (username : String)
    (form : ProfileForm) : GuardResult × DB :=
  match ownership_required db sid? username with
  | .ok sid =>
    match db.users.find? (fun u => u.username == username) with
    | none => (.notFound, db)
    | some _ =>
        (.ok sid, { db with users := db.users.map (fun u =>
            if u.username == username then
              { u with description := pyTake 500 form.description,
                       contact := pyTake 100 form.contact,
                       discord := pyTake 100 form.discord,
                       telegram := pyTake 100 form.telegram,
                       preferred_role := pyTake 100 form.preferred_role }
            else u) })
  | r => (r, db)

/-- C7: with a live session and a target handle resolving to a different
user's row, `ownership_required` answers Forbidden — whatever else the
acting user may be — and the guarded profile edit returns the store
unchanged. -/
theorem c7_ownership_forbidden (db : DB) (sid : Nat) (uname : String)
    (form : ProfileForm) (target : User)
    (hfind : db.users.find? (fun u => u.username == uname) = some target)
    (hne : target.id ≠ sid) :
    ownership_required db (some sid) uname = .forbidden ∧
      edit_profile db (some sid) uname form = (.forbidden, db) := by
  have hg : ownership_required db (some sid) uname = .forbidden := by
    unfold ownership_required
    rw [hfind]
    dsimp only
    rw [if_pos (by simpa using hne)]
  refine ⟨hg, ?_⟩
  unfold edit_profile
  rw [hg]

/-- The second user of the matchmaking store, as the guard resolves him. -/
def bobMatch : User := { id := 2, username := "bob", email := "b@mail.com" }

/-- The form of the C7 witness. -/
def formW : ProfileForm :=
  { description := "new", contact := "", discord := "", telegram := "",
    preferred_role := "" }

/-- Witness for C7: alice (session id 1) editing bob's profile. -/
theorem c7_ownership_forbidden_witness :
    (dbMatch.users.find? (fun u => u.username == "bob") = some bobMatch) ∧
    bobMatch.id ≠ 1 ∧
    (ownership_required dbMatch (some 1) ("bob") = .forbidden ∧
      edit_profile dbMatch (some 1) ("bob") formW = (.forbidden, dbMatch)) :=
  ⟨by decide, by decide,
    c7_ownership_forbidden dbMatch 1 ("bob") formW bobMatch (by decide) (by decide)⟩

/-- Autoincrement primary key for a new game row. -/
def nextGameId (db : DB) : Nat :=
  db.games.foldl (fun a g => max a (g.id + 1)) 1

/-- The stored rows for one (user, title) pair. -/
def gameEntries (db : DB) (uid : Nat) (t : String) : List Game :=
  db.games.filter (fun g => g.user_id == uid && g.game_title == t)

/-- The `/add_game/<username>` POST handler's mutation (App.py lines
225-236): `if game_title and game_title in AVAILABLE_GAMES` (None and the
empty string are falsy), then an existence check, then at most one insert. -/
def add_game (db : DB) (uid : Nat) (game_title? : Option String) : DB :=
  match game_title? with
  | none => db
  | some t =>
    if !(t == "") && AVAILABLE_GAMES.contains t then
      if db.games.any (fun g => g.user_id == uid && g.game_title == t) then db
      else { db with games := db.games ++
        [{ id := nextGameId db, game_title := t, user_id := uid }] }
    else db

/-- The existence check of `add_game` agrees with non-emptiness of the
stored rows for the pair. -/
lemma any_iff_gameEntries (db : DB) (uid : Nat) (t : String) :
    db.games.any (fun g => g.user_id == uid && g.game_title == t) = true ↔
      gameEntries db uid t ≠ [] := by
  rw [List.any_eq_true]
  unfold gameEntries
  constructor
  · rintro ⟨g, hg, hp⟩ hnil
    have hmem : g ∈ db.games.filter (fun g => g.user_id == uid && g.game_title == t) :=
      List.mem_filter.2 ⟨hg, hp⟩
    rw [hnil] at hmem
    exact absurd hmem (List.not_mem_nil g)
  · intro hne
    rcases hfe : db.games.filter (fun g => g.user_id == uid && g.game_title == t) with
      _ | ⟨g, rest⟩
    · exact absurd hfe hne
    · have hmem : g ∈ db.games.filter (fun g => g.user_id == uid && g.game_title == t) := by
        rw [hfe]; exact List.mem_cons_self g rest
      have h := List.mem_filter.1 hmem
      exact ⟨g, h.1, h.2⟩

/-- `add_game` either leaves the store untouched, or — only when the pair
had no row yet — appends exactly one new row for it. -/
lemma add_game_cases (db : DB) (uid : Nat) (t : String) :
    add_game db uid (some t) = db ∨
      (gameEntries db uid t = [] ∧
        add_game db uid (some t) = { db with games := db.games ++
          [{ id := nextGameId db, game_title := t, user_id := uid }] }) := by
  unfold add_game
  dsimp only
  by_cases hcond : (!(t == "") && AVAILABLE_GAMES.contains t) = true
  · rw [if_pos hcond]
    by_cases hany :
        db.games.any (fun g => g.user_id == uid && g.game_title == t) = true
    · rw [if_pos hany]; exact Or.inl rfl
    · rw [if_neg hany]
      refine Or.inr ⟨?_, rfl⟩
      by_contra hne
      exact hany ((any_iff_gameEntries db uid t).2 hne)
  · rw [if_neg hcond]; exact Or.inl rfl

/-- C8: the (user, title) uniqueness invariant survives `add_game`: a title
the user already holds is a no-op; a title outside the fixed catalog is
silently ignored; at-most-one-row-per-pair is preserved for every pair; a
fresh in-catalog title creates exactly one row for the pair; and repeating
the add changes nothing further. -/
theorem c8_add_game_unique (db : DB) (uid : Nat) (t : String) :
    (gameEntries db uid t ≠ [] → add_game db uid (some t) = db)
    ∧ (t ∉ AVAILABLE_GAMES → add_game db uid (some t) = db)
    ∧ (∀ uid2 t2, (gameEntries db uid2 t2).length ≤ 1 →
        (gameEntries (add_game db uid (some t)) uid2 t2).length ≤ 1)
    ∧ (t ∈ AVAILABLE_GAMES → gameEntries db uid t = [] →
        gameEntries (add_game db uid (some t)) uid t
          = [{ id := nextGameId db, game_title := t, user_id := uid }])
    ∧ add_game (add_game db uid (some t)) uid (some t)
        = add_game db uid (some t) := by
  refine ⟨?_, ?_, ?_, ?_, ?_⟩
  · intro hne
    have hany := (any_iff_gameEntries db uid t).2 hne
    unfold add_game
    dsimp only
    by_cases hcond : (!(t == "") && AVAILABLE_GAMES.contains t) = true
    · rw [if_pos hcond, if_pos hany]
    · rw [if_neg hcond]
  · intro hnot
    have hcon : AVAILABLE_GAMES.contains t = false := by
      cases hc : AVAILABLE_GAMES.contains t with
      | false => rfl
      | true => exact absurd (List.elem_iff.1 hc) hnot
    unfold add_game
    dsimp only
    simp only [hcon, Bool.and_false, Bool.false_eq_true, if_false]
  · intro uid2 t2 hle
    rcases add_game_cases db uid t with hcase | ⟨hnil, hcase⟩
    · rw [hcase]; exact hle
    · rw [hcase]
      unfold gameEntries at hle hnil ⊢
      dsimp only
      rw [List.filter_append, List.length_append]
      cases hp : (fun (g : Game) => g.user_id == uid2 && g.game_title == t2)
          { id := nextGameId db, game_title := t, user_id := uid } with
      | false =>
          simp only [List.filter_cons, hp, Bool.false_eq_true, if_false,
            List.filter_nil, List.length_nil]
          omega
      | true =>
          have hpair : uid = uid2 ∧ t = t2 := by
            simpa using hp
          obtain ⟨rfl, rfl⟩ := hpair
          rw [hnil]
          simp [List.filter_cons, hp]
  · intro hmem hnil
    have htne : ¬(t = "") := by
      intro h
      rw [h] at hmem
      exact absurd hmem (by decide)
    have hcond : (!(t == "") && AVAILABLE_GAMES.contains t) = true := by
      simp only [Bool.and_eq_true, Bool.not_eq_true', beq_eq_false_iff_ne, ne_eq]
      exact ⟨htne, List.elem_iff.2 hmem⟩
    have hany :
        db.games.any (fun g => g.user_id == uid && g.game_title == t) = false := by
      cases hx : db.games.any (fun g => g.user_id == uid && g.game_title == t) with
      | false => rfl
      | true => exact absurd hnil (by
          have := (any_iff_gameEntries db uid t).1 hx
          exact this)
    unfold add_game
    dsimp only
    rw [if_pos hcond, if_neg (by simp [hany])]
    unfold gameEntries at hnil ⊢
    dsimp only
    rw [List.filter_append, hnil]
    simp [List.filter_cons]
  · rcases add_game_cases db uid t with hcase | ⟨hnil, hcase⟩
    · rw [hcase]; exact hcase
    · rw [hcase]
      have hany2 : (db.games ++
          [({ id := nextGameId db, game_title := t, user_id := uid } : Game)]).any
            (fun g => g.user_id == uid && g.game_title == t) = true := by
        rw [List.any_append]
        simp
      unfold add_game
      dsimp only
      by_cases hcond : (!(t == "") && AVAILABLE_GAMES.contains t) = true
      · rw [if_pos hcond]
        rw [if_pos hany2]
      · rw [if_neg hcond]

/-- Witness for C8: adding Minecraft (in-catalog, not yet held) for bob. -/
theorem c8_add_game_unique_witness :
    (("Minecraft") ∈ AVAILABLE_GAMES) ∧ gameEntries dbMatch 2 ("Minecraft") = [] ∧
      gameEntries (add_game dbMatch 2 (some ("Minecraft"))) 2 ("Minecraft")
        = [{ id := nextGameId dbMatch, game_title := "Minecraft", user_id := 2 }] :=
  ⟨by decide, by decide,
    (c8_add_game_unique dbMatch 2 ("Minecraft")).2.2.2.1 (by decide) (by decide)⟩

/-- Witness for C1 at the concrete matchmaking store. -/
theorem c1_find_game_superset_witness :
    (∀ u, u ∈ find_game dbMatch ["Dota 2"] [] ↔
        u ∈ dbMatch.users ∧ u.is_active = true ∧
          ∀ t ∈ (["Dota 2"] : List String), userHasTitle dbMatch u t = true)
    ∧ (∀ u, u ∈ find_game dbMatch ["Dota 2"] [] → u.is_active = true)
    ∧ find_game dbMatch [] [] = dbMatch.users.filter (fun u => u.is_active) :=
  c1_find_game_superset dbMatch ["Dota 2"] []

/-- Witness for C3's amended statement at the concrete messaging store. -/
theorem c3_soft_delete_amended_witness :
    (∀ u ∈ find_game (delete_user dbChat ("bob")) ["Dota 2"] [], u.username ≠ "bob")
    ∧ (∀ u ∈ home (delete_user dbChat ("bob")), u.username ≠ "bob")
    ∧ (delete_user dbChat ("bob")).messages = dbChat.messages
    ∧ chat (delete_user dbChat ("bob")) 1 ("bob") = .error .notFound :=
  c3_soft_delete_amended dbChat ("bob") 1 ["Dota 2"] []
